import Mathlib

/-!
Verification of the pitch-sync backend core: the scoring engine
(`backend/services/scoring.py`), the resilience kit
(`backend/utils/resilience.py`, `backend/services/ai/client.py`), the
session store (`backend/services/state.py`) and the phase lifecycle
route handlers (`backend/api/routes/session.py`).

Python floats are modelled as rationals (ℚ), Python `round` as
round-half-to-even, Python `int(...)` on a float as truncation toward
zero, and `datetime` values as rational timestamps in seconds.
-/

namespace PitchSync

/-- Python `int(x)` applied to a float: truncation toward zero. -/
def pyTrunc (q : ℚ) : ℤ := if 0 ≤ q then ⌊q⌋ else ⌈q⌉

/-- Python built-in `round(x)` with no digits argument: round half to even. -/
def pyRound (q : ℚ) : ℤ :=
  let f : ℤ := ⌊q⌋
  let frac : ℚ := q - (f : ℚ)
  if frac < 1/2 then f
  else if 1/2 < frac then f + 1
  else if f % 2 = 0 then f else f + 1

/-! ## Settings (backend/config/settings.py, class Settings) -/

/-- `Settings.AI_QUALITY_MAX_POINTS = 1000`. -/
def AI_QUALITY_MAX_POINTS : ℚ := 1000

/-- `Settings.RETRY_PENALTY_POINTS = 0`. -/
def RETRY_PENALTY_POINTS : ℚ := 0

/-- `Settings.MAX_RETRIES = 3`. -/
def MAX_RETRIES : ℕ := 3

/-- `Settings.TIME_PENALTY_MAX_POINTS = 150`. -/
def TIME_PENALTY_MAX_POINTS : ℚ := 150

/-- `Settings.TOKEN_EFFICIENCY_BONUS_PERCENT = 0.05`. -/
def TOKEN_EFFICIENCY_BONUS_PERCENT : ℚ := 5/100

/-- `Settings.OPTIMAL_TOKEN_RANGE = (100, 600)`. -/
def OPTIMAL_TOKEN_RANGE : ℕ × ℕ := (100, 600)

/-- `Settings.PASS_THRESHOLD = 0.65`. -/
def PASS_THRESHOLD : ℚ := 65/100

/-- `Settings.MERCY_THRESHOLD = 0.45`. -/
def MERCY_THRESHOLD : ℚ := 45/100

/-- `Settings.MERCY_RETRY_COUNT = 2`. -/
def MERCY_RETRY_COUNT : ℕ := 2

/-! ## Scoring engine (backend/services/scoring.py) -/

/-- `_calculate_efficiency_bonus(token_count, base_points)`:
`base_points * TOKEN_EFFICIENCY_BONUS_PERCENT` when `token_count` lies in
`OPTIMAL_TOKEN_RANGE` (inclusive), else `0.0`. -/
def _calculate_efficiency_bonus (token_count : ℕ) (base_points : ℚ) : ℚ :=
  if OPTIMAL_TOKEN_RANGE.1 ≤ token_count ∧ token_count ≤ OPTIMAL_TOKEN_RANGE.2 then
    base_points * TOKEN_EFFICIENCY_BONUS_PERCENT
  else 0

/-- Result of `calculate_phase_score`: the fields of the returned dict and
of its `breakdown` that the claims mention.  `raw_score` and
`weighted_score` are the `int(...)` values placed in the result dict;
`weighted_score` was already an integer from `round`. -/
structure ScoreResult where
  raw_score : ℤ
  weighted_score : ℤ
  ai_quality_points : ℚ
  time_penalty : ℚ
  retry_penalty : ℚ
  hint_penalty : ℚ
  efficiency_bonus : ℚ
  max_phase_score : ℚ
  duration_seconds : ℚ
  deriving Repr, DecidableEq

/-- `calculate_phase_score` (scoring.py lines 15-113), with
`start_time`/`end_time` as rational timestamps in seconds, and
`phase_weight` / `time_limit` the values read from
`phase_def["weight"]` / `phase_def["time_limit_seconds"]`. -/
def calculate_phase_score (ai_score : ℚ) (retries : ℕ)
    (start_time end_time : ℚ) (token_count : ℕ)
    (phase_weight time_limit : ℚ) (hint_penalty : ℚ) : ScoreResult :=
  let ai_quality_points := ai_score * AI_QUALITY_MAX_POINTS
  let duration_seconds := end_time - start_time
  let time_penalty : ℚ :=
    if duration_seconds > time_limit then
      let overtime := duration_seconds - time_limit
      let ten_minute_blocks : ℤ := ⌈overtime / 600⌉
      min TIME_PENALTY_MAX_POINTS ((ten_minute_blocks : ℚ) * 10)
    else 0
  let retry_penalty := (retries : ℚ) * RETRY_PENALTY_POINTS
  let efficiency_bonus := _calculate_efficiency_bonus token_count ai_quality_points
  let raw_score := ai_quality_points - time_penalty - retry_penalty
                     - hint_penalty + efficiency_bonus
  let max_phase_score := AI_QUALITY_MAX_POINTS * phase_weight
  let weighted_val := max 0 (raw_score * phase_weight)
  let weighted_score := pyRound (min weighted_val max_phase_score)
  { raw_score := pyTrunc raw_score
    weighted_score := weighted_score
    ai_quality_points := ai_quality_points
    time_penalty := time_penalty
    retry_penalty := retry_penalty
    hint_penalty := hint_penalty
    efficiency_bonus := efficiency_bonus
    max_phase_score := max_phase_score
    duration_seconds := duration_seconds }

/-- `calculate_total_score(phase_scores)` (scoring.py lines 115-128); the
dict of phase scores is modelled by its list of values.  The code returns
`0.0` for an empty map and otherwise `float(int(min(1000.0, sum)))`. -/
def calculate_total_score (phase_scores : List ℚ) : ℚ :=
  if phase_scores = [] then 0
  else ((pyTrunc (min 1000 phase_scores.sum) : ℤ) : ℚ)

/-- The `calculated_total` recomputed by `_db_to_domain` (state.py lines
82-84): `min(1000, sum(phase_scores.values())) if phase_scores else 0`,
assigned to the returned session's `total_score`. -/
def db_to_domain_total (phase_scores : List ℚ) : ℚ :=
  if phase_scores = [] then 0 else min 1000 phase_scores.sum

/-- `determine_pass_threshold(ai_score, retries)` (scoring.py lines 156-168). -/
def determine_pass_threshold (ai_score : ℚ) (retries : ℕ) : Bool :=
  if ai_score ≥ PASS_THRESHOLD then true
  else if retries ≥ MERCY_RETRY_COUNT ∧ ai_score ≥ MERCY_THRESHOLD then true
  else false

/-! ## Circuit breaker (backend/utils/resilience.py lines 25-78)

Timestamps (`datetime.now()`) are rational numbers of seconds. -/

/-- `CircuitState` enum. -/
inductive CircuitState where
  | CLOSED
  | OPEN
  | HALF_OPEN
  deriving Repr, DecidableEq

/-- The mutable fields of the `CircuitBreaker` dataclass. -/
structure CircuitBreaker where
  failure_threshold : ℕ
  recovery_timeout : ℚ
  state : CircuitState
  failures : ℕ
  last_failure_time : Option ℚ
  deriving Repr, DecidableEq

/-- A freshly constructed `CircuitBreaker(name, threshold, timeout)`:
state `CLOSED`, `failures = 0`, `last_failure_time = None`. -/
def CircuitBreaker.mk0 (threshold : ℕ) (timeout : ℚ) : CircuitBreaker :=
  { failure_threshold := threshold
    recovery_timeout := timeout
    state := CircuitState.CLOSED
    failures := 0
    last_failure_time := none }

/-- `record_success`: reset failures to 0 and close the circuit. -/
def CircuitBreaker.record_success (cb : CircuitBreaker) : CircuitBreaker :=
  { cb with failures := 0, state := CircuitState.CLOSED }

/-- `record_failure` at time `now`: increment the counter, stamp the
failure time, and open the circuit when the counter reaches
`failure_threshold`. -/
def CircuitBreaker.record_failure (cb : CircuitBreaker) (now : ℚ) : CircuitBreaker :=
  let f := cb.failures + 1
  { cb with
    failures := f
    last_failure_time := some now
    state := if f ≥ cb.failure_threshold then CircuitState.OPEN else cb.state }

/-- `can_execute` at time `now`: returns the decision together with the
(possibly updated) breaker, since the `OPEN → HALF_OPEN` transition
happens inside this method. -/
def CircuitBreaker.can_execute (cb : CircuitBreaker) (now : ℚ) :
    Bool × CircuitBreaker :=
  match cb.state with
  | CircuitState.CLOSED => (true, cb)
  | CircuitState.OPEN =>
    match cb.last_failure_time with
    | some t =>
      if now - t ≥ cb.recovery_timeout then
        (true, { cb with state := CircuitState.HALF_OPEN })
      else (false, cb)
    | none => (false, cb)
  | CircuitState.HALF_OPEN => (true, cb)

/-- `n` consecutive `record_failure` calls, the `i`-th at time `times i`. -/
def CircuitBreaker.record_failures (cb : CircuitBreaker) (times : ℕ → ℚ) :
    ℕ → CircuitBreaker
  | 0 => cb
  | n + 1 => (cb.record_failures times n).record_failure (times n)

/-! ## Retry with backoff (backend/utils/resilience.py lines 92-179)

An error raised by the wrapped call is classified by which exception
class it is; the decorator catches exactly the classes in its
`exceptions` tuple and retries them, while any other exception
propagates out of the `try` immediately. -/

/-- Exception classes that a judge call can raise, as the spec's error
taxonomy groups them. -/
inductive JudgeError where
  | authFailure
  | timeoutErr
  | rateLimited
  | transient5xx
  | otherErr
  deriving Repr, DecidableEq

/-- One attempt of the wrapped function: `none` means it returned
normally, `some e` means it raised `e`. -/
def Outcome := ℕ → Option JudgeError

/-- The `for attempt in range(max_retries + 1)` loop of `sync_wrapper` /
`async_wrapper`, starting at attempt index `attempt` with
`remaining = max_retries - attempt` further iterations available.
Returns `(number of calls made, none)` on success or
`(number of calls made, some e)` when `e` is propagated.  An exception
whose class is not in the `exceptions` tuple (`retryable e = false`)
escapes the `except` clause at once; a caught exception is retried while
iterations remain and re-raised as `last_exception` after the loop. -/
def retryLoop (retryable : JudgeError → Bool) (outcomes : Outcome)
    (attempt : ℕ) : ℕ → ℕ × Option JudgeError
  | 0 =>
    match outcomes attempt with
    | none => (attempt + 1, none)
    | some e => (attempt + 1, some e)
  | remaining + 1 =>
    match outcomes attempt with
    | none => (attempt + 1, none)
    | some e =>
      if retryable e then retryLoop retryable outcomes (attempt + 1) remaining
      else (attempt + 1, some e)

/-- `retry_with_backoff(max_retries, ..., exceptions)` applied to a call
whose attempts behave as `outcomes` (circuit breaker absent or closed). -/
def retry_with_backoff (max_retries : ℕ) (retryable : JudgeError → Bool)
    (outcomes : Outcome) : ℕ × Option JudgeError :=
  retryLoop retryable outcomes 0 max_retries

/-- `ai_retry = retry_with_backoff(max_retries=2, base_delay=2.0,
max_delay=10.0, circuit_name="ai_service")` (resilience.py lines
240-245): the `exceptions` tuple is left at its default `(Exception,)`,
which catches every exception class. -/
def ai_retry (outcomes : Outcome) : ℕ × Option JudgeError :=
  retry_with_backoff 2 (fun _ => true) outcomes

/-! ## The AI client's own retry loop
(backend/services/ai/client.py, `ClaudeClient.generate_content`,
lines 102-171) -/

/-- Outcome of one `invoke_model` attempt, after Python classifies the
raised exception: the timeout classes, the `ClientError` codes the code
inspects, any other `ClientError` code, and any other exception. -/
inductive BedrockOutcome where
  | success
  | readTimeout
  | connectTimeout
  | throttling
  | tooManyRequests
  | accessDenied
  | expiredToken
  | modelStreamError
  | unknownClientError
  | unexpected
  deriving Repr, DecidableEq

/-- Outcomes on which `generate_content`'s loop moves on to the next
attempt; `accessDenied`, `expiredToken` and unrecognised `ClientError`
codes are re-raised immediately instead. -/
def BedrockOutcome.isRetried : BedrockOutcome → Bool
  | BedrockOutcome.readTimeout => true
  | BedrockOutcome.connectTimeout => true
  | BedrockOutcome.throttling => true
  | BedrockOutcome.tooManyRequests => true
  | BedrockOutcome.modelStreamError => true
  | BedrockOutcome.unexpected => true
  | _ => false

/-- The `for attempt in range(max_retries + 1)` loop of
`generate_content` with `max_retries = 2`, from attempt index `attempt`
with `remaining` further iterations.  Result: number of attempts made,
and `none` for a normal return or `some o` for the outcome whose
exception propagates (raised immediately for auth / unknown client
errors, or re-raised as `last_exception` after exhaustion). -/
def generateContentLoop (outcomes : ℕ → BedrockOutcome) (attempt : ℕ) :
    ℕ → ℕ × Option BedrockOutcome
  | 0 =>
    match outcomes attempt with
    | BedrockOutcome.success => (attempt + 1, none)
    | o => (attempt + 1, some o)
  | remaining + 1 =>
    match outcomes attempt with
    | BedrockOutcome.success => (attempt + 1, none)
    | o =>
      if o.isRetried then generateContentLoop outcomes (attempt + 1) remaining
      else (attempt + 1, some o)

/-- `generate_content`'s retry behaviour: `max_retries = 2`, so at most
three attempts. -/
def generate_content (outcomes : ℕ → BedrockOutcome) : ℕ × Option BedrockOutcome :=
  generateContentLoop outcomes 0 2

/-! ## Session domain model (backend/models/session.py) -/

/-- `PhaseStatus` enum. -/
inductive PhaseStatus where
  | pending
  | in_progress
  | submitted
  | passed
  | failed
  deriving Repr, DecidableEq

/-- `PhaseResponse`: the fields the submit-phase logic reads. -/
structure PhaseResponse where
  a : String
  hint_used : Bool
  deriving Repr, DecidableEq

/-- `PhaseMetric`: the numeric snapshot of one attempt. -/
structure PhaseMetric where
  ai_score : ℚ
  weighted_score : ℚ
  duration_seconds : ℚ
  retries : ℕ
  tokens_used : ℕ
  input_tokens : ℕ
  output_tokens : ℕ
  time_penalty : ℚ
  retry_penalty : ℚ
  hint_penalty : ℚ
  efficiency_bonus : ℚ
  deriving Repr, DecidableEq

/-- `PhaseData`: the fields the submit-phase logic reads. -/
structure PhaseData where
  status : PhaseStatus
  responses : List PhaseResponse
  metrics : PhaseMetric
  feedback : Option String
  rationale : Option String
  history : List PhaseMetric
  deriving Repr, DecidableEq

/-! ## Submit-phase early branches
(backend/api/routes/session.py, `submit_phase`, lines 466-590) -/

/-- `_get_retry_info` (session.py lines 776-807), retry count only:
`len(history)` plus one when the current attempt's status is terminal
(`PASSED` or `FAILED`); `0` when the phase has no data yet. -/
def _get_retry_info (phase : Option PhaseData) : ℕ :=
  match phase with
  | none => 0
  | some p =>
    p.history.length +
      (if p.status = PhaseStatus.passed ∨ p.status = PhaseStatus.failed then 1 else 0)

/-- The fields of a `SubmitPhaseResponse` that the claims inspect. -/
structure SubmitResponse where
  passed : Bool
  ai_score : ℚ
  phase_score : ℚ
  total_score : ℚ
  feedback : String
  can_proceed : Bool
  deriving Repr, DecidableEq

/-- Python `x or default` on an optional string: `None` and `""` are
falsy and fall through to the default. -/
def pyOrString (x : Option String) (d : String) : String :=
  match x with
  | none => d
  | some s => if s = "" then d else s

/-- The two early-return branches of `submit_phase` that run before the
judge is invoked (session.py lines 510-590): the pre-evaluation
max-retries check, then the redundant-submission check against a passed
phase.  `none` means neither branch fired and control reaches the judge
call (`evaluate_phase_async`); `some r` is returned without any judge
invocation.  `session_total_score` is `session.total_score`;
`allow_fail_proceed` is `settings.ALLOW_FAIL_PROCEED`. -/
def submit_phase_early (existing_phase : Option PhaseData)
    (req_responses : List PhaseResponse) (session_total_score : ℚ)
    (allow_fail_proceed : Bool) : Option SubmitResponse :=
  let retries := _get_retry_info existing_phase
  if retries > MAX_RETRIES then
    some { passed := false
           ai_score := 0
           phase_score := 0
           total_score := session_total_score
           feedback := "Maximum retries exceeded for this phase."
           can_proceed := decide (retries ≥ MAX_RETRIES) || allow_fail_proceed }
  else
    match existing_phase with
    | some p =>
      if p.status = PhaseStatus.passed ∧
          req_responses.map (fun r => (r.a, r.hint_used)) =
            p.responses.map (fun r => (r.a, r.hint_used)) then
        some { passed := true
               ai_score := p.metrics.ai_score
               phase_score := p.metrics.weighted_score
               total_score := session_total_score
               feedback := pyOrString p.feedback "Re-authenticated existing submission."
               can_proceed := true }
      else none
    | none => none

/-! ## Start-phase elapsed-time clamp
(backend/api/routes/session.py, `start_phase`, lines 222-245) -/

/-- The new accumulated elapsed value stored for the leaving phase when
the client reports `reported` total accumulated seconds: with a recorded
segment start `last_start`, the reported delta over the stored
`old_total` is checked against the wall-clock `now - last_start` plus a
5-second buffer and capped at `old_total + (now - last_start)` when it
exceeds that; with no recorded start the client value is trusted. -/
def leaving_phase_elapsed_update (old_total : ℚ) (last_start : Option ℚ)
    (now reported : ℚ) : ℚ :=
  match last_start with
  | none => reported
  | some s =>
    let max_duration := now - s
    let reported_delta := reported - old_total
    if reported_delta > max_duration + 5 then old_total + max_duration
    else reported

/-! ## Session store update (backend/services/state.py, `update_session`,
lines 220-261) -/

/-- The columns of a `SessionData` row that `update_session` touches or
compares, with the JSON text columns kept as strings. -/
structure SessionRow where
  current_phase : ℕ
  total_score : ℚ
  total_tokens : ℕ
  extra_ai_tokens : ℕ
  answers_hash : String
  usecase_json : String
  theme_json : String
  phases_json : String
  final_output_json : String
  phase_scores_json : String
  phase_start_times_json : String
  phase_elapsed_seconds_json : String
  uploaded_images_json : String
  is_complete : Bool
  created_at : ℚ
  updated_at : ℚ
  deriving Repr, DecidableEq

/-- The `content_changed` test of `update_session` (state.py lines
228-239): the ten content columns, ignoring `current_phase`,
`answers_hash`, `phase_start_times_json` and
`phase_elapsed_seconds_json`. -/
def content_changed (existing incoming : SessionRow) : Bool :=
  decide (existing.phases_json ≠ incoming.phases_json ∨
    existing.total_score ≠ incoming.total_score ∨
    existing.total_tokens ≠ incoming.total_tokens ∨
    existing.extra_ai_tokens ≠ incoming.extra_ai_tokens ∨
    existing.final_output_json ≠ incoming.final_output_json ∨
    existing.uploaded_images_json ≠ incoming.uploaded_images_json ∨
    existing.usecase_json ≠ incoming.usecase_json ∨
    existing.theme_json ≠ incoming.theme_json ∨
    existing.phase_scores_json ≠ incoming.phase_scores_json ∨
    existing.is_complete ≠ incoming.is_complete)

/-- `update_session` when the row exists (state.py lines 224-260):
every content and transient column is overwritten with the incoming
value, `created_at` is untouched, and `updated_at` is set to `now`
only when `content_changed` holds. -/
def update_session (existing incoming : SessionRow) (now : ℚ) : SessionRow :=
  { current_phase := incoming.current_phase
    total_score := incoming.total_score
    total_tokens := incoming.total_tokens
    extra_ai_tokens := incoming.extra_ai_tokens
    answers_hash := incoming.answers_hash
    usecase_json := incoming.usecase_json
    theme_json := incoming.theme_json
    phases_json := incoming.phases_json
    final_output_json := incoming.final_output_json
    phase_scores_json := incoming.phase_scores_json
    phase_start_times_json := incoming.phase_start_times_json
    phase_elapsed_seconds_json := incoming.phase_elapsed_seconds_json
    uploaded_images_json := incoming.uploaded_images_json
    is_complete := incoming.is_complete
    created_at := existing.created_at
    updated_at := if content_changed existing incoming then now else existing.updated_at }

/-! ## Concrete data used by witnesses and counterexamples -/

/-- A metric snapshot of one finished attempt. -/
def histMetric : PhaseMetric :=
  { ai_score := 1/2
    weighted_score := 0
    duration_seconds := 100
    retries := 0
    tokens_used := 50
    input_tokens := 10
    output_tokens := 10
    time_penalty := 0
    retry_penalty := 0
    hint_penalty := 0
    efficiency_bonus := 0 }

/-- A phase that passed on its fourth completed attempt: three prior
attempts in `history` and a terminal `passed` status, so
`_get_retry_info` returns `4 > MAX_RETRIES`. -/
def exhaustedPassedPhase : PhaseData :=
  { status := PhaseStatus.passed
    responses := [{ a := "answer", hint_used := false }]
    metrics := { histMetric with ai_score := 9/10, weighted_score := 250 }
    feedback := some "Well done"
    rationale := some "solid"
    history := [histMetric, histMetric, histMetric] }

/-- A phase that passed on its first attempt: empty history. -/
def freshPassedPhase : PhaseData :=
  { status := PhaseStatus.passed
    responses := [{ a := "answer", hint_used := true }]
    metrics := { histMetric with ai_score := 8/10, weighted_score := 200 }
    feedback := some "Nice"
    rationale := some "ok"
    history := [] }

/-! ## Helper lemmas -/

/-- Rounding half to even never adds more than one half. -/
lemma pyRound_le (q : ℚ) : (pyRound q : ℚ) ≤ q + 1/2 := by
  unfold pyRound
  set f : ℤ := ⌊q⌋ with hf
  have hle : (f : ℚ) ≤ q := Int.floor_le q
  by_cases h1 : q - (f : ℚ) < 1/2
  · simp only [h1, if_true]
    linarith
  · by_cases h2 : 1/2 < q - (f : ℚ)
    · simp only [h1, if_false, h2, if_true]
      push_cast
      linarith
    · have h3 : q - (f : ℚ) = 1/2 := le_antisymm (not_lt.mp h2) (not_lt.mp h1)
      by_cases h4 : f % 2 = 0
      · simp only [h1, if_false, h2, if_false, h4, if_true]
        linarith
      · simp only [h1, if_false, h2, if_false, h4, if_false]
        push_cast
        linarith


/-! ## Claim theorems -/

/-- C7: For every call to `calculate_phase_score`, the time penalty is 0
when the duration (`end_time - start_time` in seconds) is at most the
phase's time limit, and otherwise equals
`min(150, ceil((duration - timeLimit)/600) * 10)`; in particular with a
300-second limit, a 900-second duration incurs penalty 10, a 1500-second
duration incurs 20, and a 299-second duration incurs 0. -/
theorem C7_time_penalty (ai_score : ℚ) (retries : ℕ)
    (start_time end_time : ℚ) (token_count : ℕ)
    (phase_weight time_limit hint_penalty : ℚ) :
    ((end_time - start_time ≤ time_limit →
        (calculate_phase_score ai_score retries start_time end_time token_count
          phase_weight time_limit hint_penalty).time_penalty = 0) ∧
      (time_limit < end_time - start_time →
        (calculate_phase_score ai_score retries start_time end_time token_count
          phase_weight time_limit hint_penalty).time_penalty =
          min 150 ((⌈(end_time - start_time - time_limit) / 600⌉ : ℚ) * 10))) ∧
    (calculate_phase_score 1 0 0 900 300 (33/100) 300 0).time_penalty = 10 ∧
    (calculate_phase_score 1 0 0 1500 300 (33/100) 300 0).time_penalty = 20 ∧
    (calculate_phase_score 1 0 0 299 300 (33/100) 300 0).time_penalty = 0 := by
  refine ⟨⟨?_, ?_⟩, ?_, ?_, ?_⟩
  · intro h
    simp only [calculate_phase_score]
    rw [if_neg (not_lt.mpr h)]
  · intro h
    simp only [calculate_phase_score, TIME_PENALTY_MAX_POINTS]
    rw [if_pos h]
  · simp only [calculate_phase_score]
    norm_num [TIME_PENALTY_MAX_POINTS, min_def]
  · simp only [calculate_phase_score]
    norm_num [TIME_PENALTY_MAX_POINTS, min_def]
  · simp only [calculate_phase_score]
    norm_num

/-- Witness for C7: both implications applied at concrete inputs. -/
theorem C7_time_penalty_witness :
    (calculate_phase_score 1 0 0 100 300 (33/100) 300 0).time_penalty = 0 ∧
    (calculate_phase_score 1 0 0 901 300 (33/100) 300 0).time_penalty =
      min 150 ((⌈((901:ℚ) - 0 - 300) / 600⌉ : ℚ) * 10) :=
  ⟨(C7_time_penalty 1 0 0 100 300 (33/100) 300 0).1.1 (by norm_num),
   (C7_time_penalty 1 0 0 901 300 (33/100) 300 0).1.2 (by norm_num)⟩

/-- C8: For every `ai_score` and retries count,
`determine_pass_threshold(ai_score, retries)` is true iff
`ai_score ≥ 0.65` (PASS_THRESHOLD) or both `retries ≥ 2`
(MERCY_RETRY_COUNT) and `ai_score ≥ 0.45` (MERCY_THRESHOLD); in
particular (0.70, 0) passes, (0.50, 0) fails, and (0.50, 2) passes. -/
theorem C8_pass_threshold :
    (∀ (ai_score : ℚ) (retries : ℕ),
      determine_pass_threshold ai_score retries = true ↔
        (PASS_THRESHOLD ≤ ai_score ∨
          (MERCY_RETRY_COUNT ≤ retries ∧ MERCY_THRESHOLD ≤ ai_score))) ∧
    determine_pass_threshold (70/100) 0 = true ∧
    determine_pass_threshold (50/100) 0 = false ∧
    determine_pass_threshold (50/100) 2 = true := by
  refine ⟨?_,
    by norm_num [determine_pass_threshold, PASS_THRESHOLD, MERCY_THRESHOLD, MERCY_RETRY_COUNT],
    by norm_num [determine_pass_threshold, PASS_THRESHOLD, MERCY_THRESHOLD, MERCY_RETRY_COUNT],
    by norm_num [determine_pass_threshold, PASS_THRESHOLD, MERCY_THRESHOLD, MERCY_RETRY_COUNT]⟩
  intro ai r
  unfold determine_pass_threshold
  split_ifs with h1 h2
  · simp only [ge_iff_le] at h1
    simp [h1]
  · simp only [ge_iff_le] at h1 h2
    simp [h1, h2]
  · simp only [ge_iff_le] at h1 h2
    push_neg at h2
    constructor
    · intro h; cases h
    · rintro (h | ⟨hr, hs⟩)
      · exact absurd h h1
      · exact absurd (h2 hr) (not_lt.mpr hs)

/-- C6: When a start-phase request reports a leaving phase's accumulated
elapsed seconds and a segment start is recorded: if the reported increase
over the stored accumulated value exceeds the wall-clock time since that
segment start plus the 5-second skew tolerance, the stored accumulated
time is capped at the previous accumulated value plus the wall-clock
delta; otherwise the client-reported value is stored. -/
theorem C6_elapsed_clamp (old_total s now reported : ℚ) :
    (reported - old_total > (now - s) + 5 →
      leaving_phase_elapsed_update old_total (some s) now reported =
        old_total + (now - s)) ∧
    (reported - old_total ≤ (now - s) + 5 →
      leaving_phase_elapsed_update old_total (some s) now reported = reported) := by
  constructor
  · intro h
    simp only [leaving_phase_elapsed_update]
    rw [if_pos h]
  · intro h
    simp only [leaving_phase_elapsed_update]
    rw [if_neg (not_lt.mpr h)]

/-- Witness for C6: both implications at concrete inputs. -/
theorem C6_elapsed_clamp_witness :
    leaving_phase_elapsed_update 10 (some 0) 60 100 = 10 + (60 - 0) ∧
    leaving_phase_elapsed_update 10 (some 0) 60 70 = 70 :=
  ⟨(C6_elapsed_clamp 10 0 60 100).1 (by norm_num),
   (C6_elapsed_clamp 10 0 60 70).2 (by norm_num)⟩

/-- C10: `update_session` on an existing row leaves the stored
`updated_at` unchanged when none of the ten content columns differ, even
though the transient columns (`current_phase`, `phase_start_times_json`,
`phase_elapsed_seconds_json`, `answers_hash`) are still written; it
advances `updated_at` to the current time whenever some content column
changed. -/
theorem C10_updated_at_frame (existing incoming : SessionRow) (now : ℚ) :
    ((existing.phases_json = incoming.phases_json ∧
      existing.total_score = incoming.total_score ∧
      existing.total_tokens = incoming.total_tokens ∧
      existing.extra_ai_tokens = incoming.extra_ai_tokens ∧
      existing.final_output_json = incoming.final_output_json ∧
      existing.uploaded_images_json = incoming.uploaded_images_json ∧
      existing.usecase_json = incoming.usecase_json ∧
      existing.theme_json = incoming.theme_json ∧
      existing.phase_scores_json = incoming.phase_scores_json ∧
      existing.is_complete = incoming.is_complete) →
      ((update_session existing incoming now).updated_at = existing.updated_at ∧
        (update_session existing incoming now).current_phase = incoming.current_phase ∧
        (update_session existing incoming now).phase_start_times_json =
          incoming.phase_start_times_json ∧
        (update_session existing incoming now).phase_elapsed_seconds_json =
          incoming.phase_elapsed_seconds_json ∧
        (update_session existing incoming now).answers_hash = incoming.answers_hash)) ∧
    ((existing.phases_json ≠ incoming.phases_json ∨
      existing.total_score ≠ incoming.total_score ∨
      existing.total_tokens ≠ incoming.total_tokens ∨
      existing.extra_ai_tokens ≠ incoming.extra_ai_tokens ∨
      existing.final_output_json ≠ incoming.final_output_json ∨
      existing.uploaded_images_json ≠ incoming.uploaded_images_json ∨
      existing.usecase_json ≠ incoming.usecase_json ∨
      existing.theme_json ≠ incoming.theme_json ∨
      existing.phase_scores_json ≠ incoming.phase_scores_json ∨
      existing.is_complete ≠ incoming.is_complete) →
      (update_session existing incoming now).updated_at = now) := by
  constructor
  · rintro ⟨h1, h2, h3, h4, h5, h6, h7, h8, h9, h10⟩
    have hcc : content_changed existing incoming = false := by
      simp [content_changed, h1, h2, h3, h4, h5, h6, h7, h8, h9, h10]
    refine ⟨?_, rfl, rfl, rfl, rfl⟩
    simp [update_session, hcc]
  · intro h
    have hcc : content_changed existing incoming = true := by
      simp only [content_changed, decide_eq_true_eq]
      tauto
    simp [update_session, hcc]

/-- Witness for C10: both implications at concrete rows. -/
theorem C10_updated_at_frame_witness :
    ((update_session
        { current_phase := 1, total_score := 100, total_tokens := 5,
          extra_ai_tokens := 0, answers_hash := "h0", usecase_json := "u",
          theme_json := "t", phases_json := "p", final_output_json := "f",
          phase_scores_json := "s", phase_start_times_json := "st0",
          phase_elapsed_seconds_json := "el0", uploaded_images_json := "i",
          is_complete := false, created_at := 0, updated_at := 7 }
        { current_phase := 2, total_score := 100, total_tokens := 5,
          extra_ai_tokens := 0, answers_hash := "h1", usecase_json := "u",
          theme_json := "t", phases_json := "p", final_output_json := "f",
          phase_scores_json := "s", phase_start_times_json := "st1",
          phase_elapsed_seconds_json := "el1", uploaded_images_json := "i",
          is_complete := false, created_at := 0, updated_at := 9 }
        9).updated_at = 7) ∧
    ((update_session
        { current_phase := 1, total_score := 100, total_tokens := 5,
          extra_ai_tokens := 0, answers_hash := "h0", usecase_json := "u",
          theme_json := "t", phases_json := "p", final_output_json := "f",
          phase_scores_json := "s", phase_start_times_json := "st0",
          phase_elapsed_seconds_json := "el0", uploaded_images_json := "i",
          is_complete := false, created_at := 0, updated_at := 7 }
        { current_phase := 2, total_score := 250, total_tokens := 5,
          extra_ai_tokens := 0, answers_hash := "h1", usecase_json := "u",
          theme_json := "t", phases_json := "p2", final_output_json := "f",
          phase_scores_json := "s2", phase_start_times_json := "st1",
          phase_elapsed_seconds_json := "el1", uploaded_images_json := "i",
          is_complete := false, created_at := 0, updated_at := 9 }
        9).updated_at = 9) :=
  ⟨((C10_updated_at_frame _ _ 9).1
      ⟨rfl, rfl, rfl, rfl, rfl, rfl, rfl, rfl, rfl, rfl⟩).1,
   (C10_updated_at_frame _ _ 9).2
      (Or.inl (by simp))⟩

/-- C2 (counterexample): `calculate_total_score` does not return
`min(1000, sum(values))` — the final `float(int(...))` truncates the
capped sum toward zero, so a map whose values sum to 500.5 yields 500,
not 500.5. -/
theorem C2_counterexample :
    calculate_total_score [(1001 : ℚ)/2] = 500 ∧
    min 1000 (List.sum [(1001 : ℚ)/2]) = 1001/2 ∧
    calculate_total_score [(1001 : ℚ)/2] ≠ min 1000 (List.sum [(1001 : ℚ)/2]) := by
  refine ⟨?_, ?_, ?_⟩
  · norm_num [calculate_total_score, pyTrunc, min_def]
  · norm_num [min_def]
  · norm_num [calculate_total_score, pyTrunc, min_def]

/-- C2 (amended): `calculate_total_score` returns the capped sum
truncated to an integer — `float(int(min(1000, sum)))` — for a non-empty
map and 0 for an empty map, while every store read (`_db_to_domain`)
recomputes `total_score` as exactly `min(1000, sum(phase_scores))`
regardless of the persisted `total_score` column. -/
theorem C2_total_score :
    (∀ ps : List ℚ, ps ≠ [] →
      calculate_total_score ps = ((pyTrunc (min 1000 ps.sum) : ℤ) : ℚ)) ∧
    calculate_total_score [] = 0 ∧
    (∀ ps : List ℚ, db_to_domain_total ps = min 1000 ps.sum) := by
  refine ⟨?_, by simp [calculate_total_score], ?_⟩
  · intro ps h
    simp [calculate_total_score, h]
  · intro ps
    by_cases h : ps = []
    · subst h
      norm_num [db_to_domain_total]
    · simp [db_to_domain_total, h]

/-- Witness for C2 (amended): the non-empty branch at a concrete map. -/
theorem C2_total_score_witness :
    calculate_total_score [(1001 : ℚ)/2] =
      ((pyTrunc (min 1000 (List.sum [(1001 : ℚ)/2])) : ℤ) : ℚ) :=
  C2_total_score.1 [(1001 : ℚ)/2] (by simp)

/-- Rounding the capped value keeps it within half a point of the cap. -/
lemma pyRound_min_le (a b : ℚ) : (pyRound (min a b) : ℚ) ≤ b + 1/2 :=
  le_trans (pyRound_le _) (by linarith [min_le_right a b])

/-- C1 (counterexample): with phase weight 0.2506 ∈ (0,1], a maximal AI
score and the efficiency bonus, `calculate_phase_score` returns
`weighted_score = 251`, which exceeds the weight share
`1000 * 0.2506 = 250.6`: the final integer rounding can push the
returned score above the cap. -/
theorem C1_counterexample :
    0 < (2506/10000 : ℚ) ∧ (2506/10000 : ℚ) ≤ 1 ∧
    ((calculate_phase_score 1 0 0 60 300 (2506/10000) 300 0).weighted_score : ℚ) = 251 ∧
    1000 * (2506/10000 : ℚ) = 1253/5 ∧
    ¬ (((calculate_phase_score 1 0 0 60 300 (2506/10000) 300 0).weighted_score : ℚ) ≤
        1000 * (2506/10000 : ℚ)) := by
  have hval :
      ((calculate_phase_score 1 0 0 60 300 (2506/10000) 300 0).weighted_score : ℚ) = 251 := by
    simp only [calculate_phase_score, _calculate_efficiency_bonus, pyRound,
      AI_QUALITY_MAX_POINTS, RETRY_PENALTY_POINTS, TOKEN_EFFICIENCY_BONUS_PERCENT,
      OPTIMAL_TOKEN_RANGE, TIME_PENALTY_MAX_POINTS]
    norm_num [min_def, max_def]
  refine ⟨by norm_num, by norm_num, hval, by norm_num, ?_⟩
  rw [hval]
  norm_num

/-- C1 (amended): for every call to `calculate_phase_score` with a phase
weight in (0,1], the returned `weighted_score` is at most
`1000 * phase_weight + 1/2`: the clamp holds before the final integer
rounding, which can exceed the weight share by at most half a point. -/
theorem C1_weighted_cap (ai_score : ℚ) (retries : ℕ)
    (start_time end_time : ℚ) (token_count : ℕ)
    (phase_weight time_limit hint_penalty : ℚ)
    (h0 : 0 < phase_weight) (h1 : phase_weight ≤ 1) :
    ((calculate_phase_score ai_score retries start_time end_time token_count
        phase_weight time_limit hint_penalty).weighted_score : ℚ) ≤
      1000 * phase_weight + 1/2 := by
  simp only [calculate_phase_score, AI_QUALITY_MAX_POINTS]
  exact pyRound_min_le _ _

/-- Witness for C1 (amended): at the counterexample's inputs the rounded
score 251 is within half a point of the cap 250.6. -/
theorem C1_weighted_cap_witness :
    0 < (2506/10000 : ℚ) ∧ (2506/10000 : ℚ) ≤ 1 ∧
    ((calculate_phase_score 1 0 0 60 300 (2506/10000) 300 0).weighted_score : ℚ) ≤
      1000 * (2506/10000 : ℚ) + 1/2 :=
  ⟨by norm_num, by norm_num,
   C1_weighted_cap 1 0 0 60 300 (2506/10000) 300 0 (by norm_num) (by norm_num)⟩

/-- From a fresh breaker, `n` recorded failures leave the counter at `n`,
and the state is `OPEN` exactly when at least one failure occurred and
the counter reached the threshold. -/
lemma record_failures_spec (threshold : ℕ) (timeout : ℚ) (times : ℕ → ℚ) (n : ℕ) :
    ((CircuitBreaker.mk0 threshold timeout).record_failures times n).failure_threshold =
      threshold ∧
    ((CircuitBreaker.mk0 threshold timeout).record_failures times n).failures = n ∧
    ((CircuitBreaker.mk0 threshold timeout).record_failures times n).state =
      (if threshold ≤ n ∧ 1 ≤ n then CircuitState.OPEN else CircuitState.CLOSED) := by
  induction n with
  | zero =>
    refine ⟨rfl, rfl, ?_⟩
    simp [CircuitBreaker.record_failures, CircuitBreaker.mk0]
  | succ m ih =>
    obtain ⟨iht, ihf, ihs⟩ := ih
    refine ⟨?_, ?_, ?_⟩
    · simp [CircuitBreaker.record_failures, CircuitBreaker.record_failure, iht]
    · simp [CircuitBreaker.record_failures, CircuitBreaker.record_failure, ihf]
    · simp only [CircuitBreaker.record_failures, CircuitBreaker.record_failure, iht, ihf, ihs]
      by_cases h : threshold ≤ m + 1
      · simp [h]
      · have h2 : ¬ threshold ≤ m := fun hm => h (Nat.le_succ_of_le hm)
        simp [h, h2]

/-- C3: The circuit breaker starts closed and opens once recorded
failures reach `failure_threshold` (staying closed below it); while
open, `can_execute()` returns false and changes nothing until
`recovery_timeout` seconds have elapsed since the last failure, after
which one call is allowed through in `half_open`; a success then
returns the breaker to closed and resets the failure counter, while a
failure returns it to open and restarts the cooldown from the new
failure time — so either recorded outcome leaves the half-open state. -/
theorem C3_circuit_breaker (threshold : ℕ) (timeout : ℚ) (times : ℕ → ℚ)
    (cb : CircuitBreaker) (t now : ℚ) (n : ℕ) :
    ((CircuitBreaker.mk0 threshold timeout).state = CircuitState.CLOSED ∧
      ((CircuitBreaker.mk0 threshold timeout).can_execute now).1 = true) ∧
    (1 ≤ n → threshold ≤ n →
      ((CircuitBreaker.mk0 threshold timeout).record_failures times n).state =
        CircuitState.OPEN) ∧
    (n < threshold →
      ((CircuitBreaker.mk0 threshold timeout).record_failures times n).state =
        CircuitState.CLOSED) ∧
    (cb.state = CircuitState.OPEN → cb.last_failure_time = some t →
      now - t < cb.recovery_timeout → cb.can_execute now = (false, cb)) ∧
    (cb.state = CircuitState.OPEN → cb.last_failure_time = some t →
      cb.recovery_timeout ≤ now - t →
      cb.can_execute now = (true, { cb with state := CircuitState.HALF_OPEN })) ∧
    (cb.state = CircuitState.HALF_OPEN → (cb.can_execute now).1 = true) ∧
    (cb.record_success.state = CircuitState.CLOSED ∧ cb.record_success.failures = 0) ∧
    (cb.failure_threshold ≤ cb.failures →
      ((cb.record_failure now).state = CircuitState.OPEN ∧
        (cb.record_failure now).last_failure_time = some now)) := by
  refine ⟨⟨rfl, rfl⟩, ?_, ?_, ?_, ?_, ?_, ⟨rfl, rfl⟩, ?_⟩
  · intro h1 hth
    rw [(record_failures_spec threshold timeout times n).2.2]
    simp [hth, h1]
  · intro hlt
    rw [(record_failures_spec threshold timeout times n).2.2]
    simp [Nat.not_le_of_lt hlt]
  · intro hst hlft hlt
    simp [CircuitBreaker.can_execute, hst, hlft, not_le.mpr hlt]
  · intro hst hlft hle
    simp [CircuitBreaker.can_execute, hst, hlft, hle]
  · intro hst
    simp [CircuitBreaker.can_execute, hst]
  · intro hf
    have hsucc : cb.failures + 1 ≥ cb.failure_threshold := Nat.le_succ_of_le hf
    constructor
    · simp [CircuitBreaker.record_failure, hsucc]
    · simp [CircuitBreaker.record_failure]

/-- Witness for C3: a threshold-5, 60-second breaker driven through the
full cycle at concrete times. -/
theorem C3_circuit_breaker_witness :
    ((CircuitBreaker.mk0 5 60).record_failures (fun _ => 0) 5).state =
      CircuitState.OPEN ∧
    ((CircuitBreaker.mk0 5 60).record_failures (fun _ => 0) 4).state =
      CircuitState.CLOSED ∧
    ({ failure_threshold := 5, recovery_timeout := 60,
       state := CircuitState.OPEN, failures := 5,
       last_failure_time := some 0 } : CircuitBreaker).can_execute 30 =
      (false, { failure_threshold := 5, recovery_timeout := 60,
                state := CircuitState.OPEN, failures := 5,
                last_failure_time := some 0 }) ∧
    ({ failure_threshold := 5, recovery_timeout := 60,
       state := CircuitState.OPEN, failures := 5,
       last_failure_time := some 0 } : CircuitBreaker).can_execute 60 =
      (true, { failure_threshold := 5, recovery_timeout := 60,
               state := CircuitState.HALF_OPEN, failures := 5,
               last_failure_time := some 0 }) ∧
    (({ failure_threshold := 5, recovery_timeout := 60,
        state := CircuitState.HALF_OPEN, failures := 5,
        last_failure_time := some 0 } : CircuitBreaker).record_failure 61).state =
      CircuitState.OPEN :=
  ⟨(C3_circuit_breaker 5 60 (fun _ => 0)
      (CircuitBreaker.mk0 5 60) 0 0 5).2.1 (by norm_num) (by norm_num),
   (C3_circuit_breaker 5 60 (fun _ => 0)
      (CircuitBreaker.mk0 5 60) 0 0 4).2.2.1 (by norm_num),
   (C3_circuit_breaker 5 60 (fun _ => 0)
      { failure_threshold := 5, recovery_timeout := 60,
        state := CircuitState.OPEN, failures := 5,
        last_failure_time := some 0 } 0 30 0).2.2.2.1 rfl rfl (by norm_num),
   (C3_circuit_breaker 5 60 (fun _ => 0)
      { failure_threshold := 5, recovery_timeout := 60,
        state := CircuitState.OPEN, failures := 5,
        last_failure_time := some 0 } 0 60 0).2.2.2.2.1 rfl rfl (by norm_num),
   ((C3_circuit_breaker 5 60 (fun _ => 0)
      { failure_threshold := 5, recovery_timeout := 60,
        state := CircuitState.HALF_OPEN, failures := 5,
        last_failure_time := some 0 } 0 61 0).2.2.2.2.2.2.2 (by norm_num)).1⟩

/-- A judge call that raises an authorization failure on every attempt. -/
def alwaysAuthFailure : Outcome := fun _ => some JudgeError.authFailure

/-- An `invoke_model` call that raises `AccessDeniedException` on every
attempt. -/
def alwaysAccessDenied : ℕ → BedrockOutcome := fun _ => BedrockOutcome.accessDenied

/-- An `invoke_model` call that times out on every attempt. -/
def alwaysReadTimeout : ℕ → BedrockOutcome := fun _ => BedrockOutcome.readTimeout

/-- An `invoke_model` call that is throttled on every attempt. -/
def alwaysThrottled : ℕ → BedrockOutcome := fun _ => BedrockOutcome.throttling

/-- C4 (counterexample): the retry-with-backoff layer configured for
judge calls (`ai_retry`, whose `exceptions` tuple is the default
`(Exception,)`) retries an authorization failure like any other error: a
call that always raises an auth failure is attempted 3 times
(`max_retries = 2` extra attempts with backoff), not surfaced after the
first attempt. -/
theorem C4_counterexample :
    ai_retry alwaysAuthFailure = (3, some JudgeError.authFailure) ∧
    (ai_retry alwaysAuthFailure).1 ≠ 1 := by
  constructor
  · rfl
  · intro h
    rw [show ai_retry alwaysAuthFailure = (3, some JudgeError.authFailure) from rfl] at h
    simp at h

/-- C4 (amended): the cited retry-with-backoff layer does not classify
errors — `ai_retry` retries every exception class, auth failures
included, making three attempts before propagating the last error.  The
immediate surfacing of authorization/credential failures happens inside
the AI client's own retry loop (`ClaudeClient.generate_content`), which
re-raises `AccessDeniedException` / `ExpiredTokenException` (and
unrecognised Bedrock error codes) at once without retrying, while
timeouts and rate-limiting are retried until the attempts are exhausted
and the last error is propagated. -/
theorem C4_retry_classification :
    (∀ e : JudgeError, ai_retry (fun _ => some e) = (3, some e)) ∧
    (∀ outcomes : ℕ → BedrockOutcome,
      outcomes 0 = BedrockOutcome.accessDenied ∨
        outcomes 0 = BedrockOutcome.expiredToken →
      generate_content outcomes = (1, some (outcomes 0))) ∧
    (∀ outcomes : ℕ → BedrockOutcome,
      outcomes 0 = BedrockOutcome.unknownClientError →
      generate_content outcomes = (1, some (outcomes 0))) ∧
    generate_content alwaysReadTimeout = (3, some BedrockOutcome.readTimeout) ∧
    generate_content alwaysThrottled = (3, some BedrockOutcome.throttling) := by
  refine ⟨fun e => rfl, ?_, ?_, rfl, rfl⟩
  · rintro outcomes (h | h) <;>
      simp [generate_content, generateContentLoop, h, BedrockOutcome.isRetried]
  · intro outcomes h
    simp [generate_content, generateContentLoop, h, BedrockOutcome.isRetried]

/-- Witness for C4 (amended): an always-denied call surfaces after one
attempt. -/
theorem C4_retry_classification_witness :
    generate_content alwaysAccessDenied = (1, some (alwaysAccessDenied 0)) :=
  C4_retry_classification.2.1 alwaysAccessDenied (Or.inl rfl)

/-- C9: When a submit-phase request arrives for a phase whose count of
prior completed attempts exceeds `MAX_RETRIES`, `submit_phase` returns a
normal failure response instead of raising: `passed = false`, zero
scores, the stored total untouched, `can_proceed` computed from the
exhausted-retries / forced-proceed policy (and true here), and the judge
is never invoked (the early response is returned before
`evaluate_phase_async` runs). -/
theorem C9_max_retries (existing_phase : Option PhaseData)
    (req_responses : List PhaseResponse) (total : ℚ) (afp : Bool)
    (h : MAX_RETRIES < _get_retry_info existing_phase) :
    submit_phase_early existing_phase req_responses total afp =
      some { passed := false
             ai_score := 0
             phase_score := 0
             total_score := total
             feedback := "Maximum retries exceeded for this phase."
             can_proceed :=
               decide (_get_retry_info existing_phase ≥ MAX_RETRIES) || afp } ∧
    (decide (_get_retry_info existing_phase ≥ MAX_RETRIES) || afp) = true := by
  constructor
  · simp only [submit_phase_early]
    rw [if_pos h]
  · simp [Nat.le_of_lt h]

/-- Witness for C9: a phase that passed on its fourth completed attempt
(`_get_retry_info = 4 > 3`). -/
theorem C9_max_retries_witness :
    submit_phase_early (some exhaustedPassedPhase)
        [{ a := "answer", hint_used := false }] 250 true =
      some { passed := false
             ai_score := 0
             phase_score := 0
             total_score := 250
             feedback := "Maximum retries exceeded for this phase."
             can_proceed :=
               decide (_get_retry_info (some exhaustedPassedPhase) ≥ MAX_RETRIES) || true } ∧
    (decide (_get_retry_info (some exhaustedPassedPhase) ≥ MAX_RETRIES) || true) = true :=
  C9_max_retries (some exhaustedPassedPhase)
    [{ a := "answer", hint_used := false }] 250 true (by decide)

/-- C5 (counterexample): a phase whose stored status is `passed` but
which consumed four completed attempts (history length 3): an identical
re-submission — the same answer list, hint flags included — does not
return the stored result; the earlier max-retries branch fires first and
returns a failure response with `ai_score = 0` instead of the stored
`0.9` and `passed = false` instead of `true`. -/
theorem C5_counterexample :
    exhaustedPassedPhase.status = PhaseStatus.passed ∧
    exhaustedPassedPhase.responses = [{ a := "answer", hint_used := false }] ∧
    exhaustedPassedPhase.metrics.ai_score = 9/10 ∧
    submit_phase_early (some exhaustedPassedPhase)
        [{ a := "answer", hint_used := false }] 250 true =
      some { passed := false
             ai_score := 0
             phase_score := 0
             total_score := 250
             feedback := "Maximum retries exceeded for this phase."
             can_proceed := true } ∧
    (0 : ℚ) ≠ 9/10 := by
  refine ⟨rfl, rfl, rfl, ?_, by norm_num⟩
  rfl

/-- C5 (amended): if a phase's stored status is `passed`, the newly
submitted answer set is identical to the stored one (same answer text
and hint flag for every response, in order), and the count of prior
completed attempts does not exceed `MAX_RETRIES` — otherwise the
max-retries branch fires first — then submit-phase returns the stored
result (`passed = true`, the stored `ai_score` and weighted phase score,
the stored feedback when non-empty) without invoking the judge, and
leaves `total_score` unchanged. -/
theorem C5_idempotent_resubmit (p : PhaseData)
    (req_responses : List PhaseResponse) (total : ℚ) (afp : Bool)
    (hstatus : p.status = PhaseStatus.passed)
    (hanswers : req_responses.map (fun r => (r.a, r.hint_used)) =
      p.responses.map (fun r => (r.a, r.hint_used)))
    (hretries : _get_retry_info (some p) ≤ MAX_RETRIES) :
    submit_phase_early (some p) req_responses total afp =
      some { passed := true
             ai_score := p.metrics.ai_score
             phase_score := p.metrics.weighted_score
             total_score := total
             feedback := pyOrString p.feedback "Re-authenticated existing submission."
             can_proceed := true } ∧
    (∀ f : String, p.feedback = some f → f ≠ "" →
      pyOrString p.feedback "Re-authenticated existing submission." = f) := by
  constructor
  · simp only [submit_phase_early]
    rw [if_neg (not_lt.mpr hretries), if_pos ⟨hstatus, hanswers⟩]
  · intro f hf hne
    simp [pyOrString, hf, hne]

/-- Witness for C5 (amended): a first-attempt passed phase re-submitted
with the identical answer list. -/
theorem C5_idempotent_resubmit_witness :
    submit_phase_early (some freshPassedPhase)
        [{ a := "answer", hint_used := true }] 200 true =
      some { passed := true
             ai_score := freshPassedPhase.metrics.ai_score
             phase_score := freshPassedPhase.metrics.weighted_score
             total_score := 200
             feedback := pyOrString freshPassedPhase.feedback
               "Re-authenticated existing submission."
             can_proceed := true } :=
  (C5_idempotent_resubmit freshPassedPhase
    [{ a := "answer", hint_used := true }] 200 true rfl rfl (by decide)).1

end PitchSync
